import Mathlib

/-
  Verification of the ptyprocess library (process.rs).

  The code is effectful: it forks, sends signals, sleeps and performs
  terminal ioctls.  We embed each routine as a pure function over explicit
  oracles: every fallible syscall the routine performs becomes a field of an
  environment record (its result), indexed by call order where a call site is
  reached several times.  The control flow of each embedded function is a
  direct translation of the corresponding Rust function.
-/

deriving instance DecidableEq for Except

namespace Ptyprocess

/-- The subset of errno values the library inspects, plus a catch-all. -/
inductive Errno where
  | ESRCH
  | ENXIO
  | ECHILD
  | EACCES
  | otherErrno (n : Nat)
deriving DecidableEq, Repr

/-- The nix crate error type (nix 0.x): a syscall errno or one of three
library-level errors. -/
inductive NixError where
  | Sys (e : Errno)
  | InvalidPath
  | InvalidUtf8
  | UnsupportedOperation
deriving DecidableEq, Repr

/-- Signals used by the escalation ladder in exit, plus a catch-all. -/
inductive Signal where
  | SIGHUP
  | SIGCONT
  | SIGINT
  | SIGTERM
  | SIGKILL
  | otherSignal (n : Nat)
deriving DecidableEq, Repr

/-- The nix WaitStatus type returned by waitpid. -/
inductive WaitStatus where
  | Exited (pid : Int) (code : Int)
  | Signaled (pid : Int) (sig : Signal) (coreDumped : Bool)
  | Stopped (pid : Int) (sig : Signal)
  | PtraceEvent (pid : Int) (sig : Signal) (event : Int)
  | PtraceSyscall (pid : Int)
  | Continued (pid : Int)
  | StillAlive
deriving DecidableEq, Repr

/-- Numeric code of an errno value (Linux numbering for the named ones). -/
def errnoCode : Errno → Int
  | .ESRCH => 3
  | Errno.ENXIO => 6
  | .ECHILD => 10
  | .EACCES => 13
  | .otherErrno n => n

/-- The nix errno-from-i32 conversion, restricted to the represented values
(the parent uses it on the code read from the exec-error pipe). -/
def errnoFromCode (n : Int) : Errno :=
  if n = 3 then .ESRCH
  else if n = 6 then Errno.ENXIO
  else if n = 10 then .ECHILD
  else if n = 13 then .EACCES
  else .otherErrno n.toNat

/-- An errno value that the round-trip through its numeric code preserves,
with a positive code below 2^31 (true of every real errno). -/
def validErrno (e : Errno) : Bool :=
  decide (0 < errnoCode e) && decide (errnoCode e < 2 ^ 31)
    && decide (errnoFromCode (errnoCode e) = e)

/-- The i32 to_be_bytes conversion: four big-endian bytes of the two's
complement representation. -/
def toBeBytes4 (x : Int) : List Nat :=
  let u := (x % (2 : Int) ^ 32).toNat
  [u / 2 ^ 24 % 256, u / 2 ^ 16 % 256, u / 2 ^ 8 % 256, u % 256]

/-- The i32 from_be_bytes conversion on a four-byte buffer. -/
def fromBeBytes4 (bs : List Nat) : Int :=
  let n : Nat := bs.getD 0 0 * 2 ^ 24 + bs.getD 1 0 * 2 ^ 16 + bs.getD 2 0 * 2 ^ 8 + bs.getD 3 0
  if n < 2 ^ 31 then (n : Int) else (n : Int) - 2 ^ 32

/-- The as_errno accessor of the nix error type. -/
def asErrno : NixError → Option Errno
  | .Sys e => some e
  | _ => none

/-- Child side of the exec-error protocol (process.rs lines 105 to 115):
after exec returns, the child takes the last error, extracts its errno with
as_errno mapping a missing errno to -1, writes the code as to_be_bytes over
the pipe and exits with the code.  Returns the bytes written and the exit
code. -/
def childReport (err : NixError) : List Nat × Int :=
  let code : Int := (asErrno err).elim (-1) errnoCode
  (toBeBytes4 code, code)

/-- Parent side of the exec-error protocol (process.rs lines 117 to 124):
the pipe buffer starts as four zero bytes, a single read fills its first
bytes, the result is decoded with from_be_bytes; a nonzero code is converted
back to an errno and returned as the spawn error, a zero code means the exec
succeeded and spawn continues. -/
def parentReadOutcome (bytesRead : List Nat) : Except NixError Unit :=
  let buf := (bytesRead ++ List.replicate 4 0).take 4
  let code := fromBeBytes4 buf
  if code ≠ 0 then .error (.Sys (errnoFromCode code)) else .ok ()

/-- The is_alive result mapping (process.rs lines 263 to 270) as a function
of the result of the status query. -/
def is_alive (st : Except NixError WaitStatus) : Except NixError Bool :=
  match st with
  | .ok s => if s = .StillAlive then .ok true else .ok false
  | .error (.Sys .ECHILD) => .ok false
  | .error (.Sys .ESRCH) => .ok false
  | .error e => .error e

/-- Spec wording of the is_alive mapping: StillAlive maps to true;
Exited, Signaled, Stopped and the rest map to false; errors ECHILD and
ESRCH map to false; other errors propagate. -/
def isAliveSpecClaim (st : Except NixError WaitStatus) : Except NixError Bool :=
  match st with
  | .ok .StillAlive => .ok true
  | .ok _ => .ok false
  | .error (.Sys .ECHILD) => .ok false
  | .error (.Sys .ESRCH) => .ok false
  | .error e => .error e

/-- One observable action of the exit escalation: a signal send or a sleep
of the given number of milliseconds. -/
inductive ExitEvent where
  | kill (sig : Signal)
  | sleep (ms : Nat)
deriving DecidableEq, Repr

/-- Oracle environment for exit: the result of the n-th is_alive call and of
the n-th kill call, both counted from 0 across the whole exit run. -/
structure ExitEnv where
  aliveR : Nat → Except NixError Bool
  killR : Nat → Except NixError Unit

/-- The terminate_approach_delay value installed by spawn
(process.rs line 139), in milliseconds. -/
def default_terminate_approach_delay : Nat := 100

/-- try_to_terminate (process.rs lines 308 to 313): kill the child with the
signal, sleep the terminate approach delay, then report the negation of
is_alive.  Takes and returns the kill and is_alive call counters; returns
the event trace of the attempt as well. -/
def try_to_terminate (env : ExitEnv) (delay : Nat) (sig : Signal) (k a : Nat) :
    List ExitEvent × Except NixError Bool × Nat × Nat :=
  match env.killR k with
  | .error e => ([.kill sig], .error e, k + 1, a)
  | .ok _ =>
    match env.aliveR a with
    | .error e => ([.kill sig, .sleep delay], .error e, k + 1, a + 1)
    | .ok al => ([.kill sig, .sleep delay], .ok (!al), k + 1, a + 1)

/-- The escalation ladder of exit (process.rs lines 290 to 295). -/
def exitSignals : List Signal := [.SIGHUP, .SIGCONT, .SIGINT, .SIGTERM]

/-- The signal loop of exit (process.rs lines 290 to 305): try each signal
in turn, returning true at the first attempt that finds the child dead; when
the list is exhausted return false unless force is set, in which case make a
final SIGKILL attempt and return its verdict. -/
def exitLoop (env : ExitEnv) (delay : Nat) (force : Bool) :
    List Signal → Nat → Nat → List ExitEvent × Except NixError Bool
  | [], k, a =>
    if force then
      let r := try_to_terminate env delay .SIGKILL k a
      (r.1, r.2.1)
    else ([], .ok false)
  | s :: rest, k, a =>
    let r := try_to_terminate env delay s k a
    match r.2.1 with
    | .error e => (r.1, .error e)
    | .ok true => (r.1, .ok true)
    | .ok false =>
      let q := exitLoop env delay force rest r.2.2.1 r.2.2.2
      (r.1 ++ q.1, q.2)

/-- exit (process.rs lines 285 to 306): if the child is already not alive
return true at once, otherwise run the escalation loop.  The initial
is_alive call has index 0, so the loop starts its alive counter at 1. -/
def exit (env : ExitEnv) (delay : Nat) (force : Bool) :
    List ExitEvent × Except NixError Bool :=
  match env.aliveR 0 with
  | .error e => ([], .error e)
  | .ok false => ([], .ok true)
  | .ok true => exitLoop env delay force exitSignals 0 1

/-- Spec wording of the exit escalation, unrolled: immediate true when not
alive; SIGHUP, SIGCONT, SIGINT, SIGTERM in that order, a sleep after each
send, true at the first re-check that finds the child dead; false after all
four when force is unset; otherwise SIGKILL, one more sleep, and the final
liveness verdict.  The n-th liveness check is alive n. -/
def exitSpecClaim (alive : Nat → Bool) (delay : Nat) (force : Bool) :
    List ExitEvent × Except NixError Bool :=
  if alive 0 = false then ([], .ok true)
  else if alive 1 = false then ([.kill .SIGHUP, .sleep delay], .ok true)
  else if alive 2 = false then
    ([.kill .SIGHUP, .sleep delay, .kill .SIGCONT, .sleep delay], .ok true)
  else if alive 3 = false then
    ([.kill .SIGHUP, .sleep delay, .kill .SIGCONT, .sleep delay,
      .kill .SIGINT, .sleep delay], .ok true)
  else if alive 4 = false then
    ([.kill .SIGHUP, .sleep delay, .kill .SIGCONT, .sleep delay,
      .kill .SIGINT, .sleep delay, .kill .SIGTERM, .sleep delay], .ok true)
  else if force = false then
    ([.kill .SIGHUP, .sleep delay, .kill .SIGCONT, .sleep delay,
      .kill .SIGINT, .sleep delay, .kill .SIGTERM, .sleep delay], .ok false)
  else
    ([.kill .SIGHUP, .sleep delay, .kill .SIGCONT, .sleep delay,
      .kill .SIGINT, .sleep delay, .kill .SIGTERM, .sleep delay,
      .kill .SIGKILL, .sleep delay], .ok (!alive 5))

/-- Modelled from the spec: the ControlCode enumeration lives outside src;
the spec fixes the interact escape byte Ctrl-] (the group separator) as
0x1D. -/
def groupSeparator : Nat := 29

/-- The stdin chunk scan of the sync interact loop (process.rs lines 482 to
491): walk the chunk byte by byte; at the escape byte stop and report it,
otherwise forward the byte to the child.  Returns the forwarded bytes in
order and whether the escape byte was hit. -/
def forwardChunk : List Nat → List Nat × Bool
  | [] => ([], false)
  | b :: rest =>
    if b = groupSeparator then ([], true)
    else
      let r := forwardChunk rest
      (b :: r.1, r.2)

/-- Inputs of one iteration of the sync interact splice loop: the status
polled at the top, the try_read results of the child stream and of the
duplicated stdin (none meaning would-block, some bs the bytes read), and
the status a re-poll would return on an early exit this iteration. -/
structure IterInput where
  statusFirst : Except NixError WaitStatus
  childRead : Option (List Nat)
  stdinRead : Option (List Nat)
  statusRepoll : Except NixError WaitStatus

/-- Outcome of one iteration of the splice loop: either the loop returns a
result, or it continues; both record the bytes written to the real stdout
and those forwarded to the child, and a continue records whether the
back-off sleep ran. -/
inductive IterOut where
  | ret (result : Except NixError WaitStatus) (stdoutBytes : List Nat) (childBytes : List Nat)
  | cont (stdoutBytes : List Nat) (childBytes : List Nat) (slept : Bool)
deriving DecidableEq, Repr

/-- One iteration of the sync interact splice loop (process.rs lines 450 to
499).  Status not StillAlive returns that status result; a child read of 0
bytes returns a re-polled status; child bytes go to stdout; a stdin read of
0 bytes returns a re-polled status; stdin bytes are scanned with
forwardChunk and the escape byte returns a re-polled status, dropping the
rest of the chunk; with no activity on either stream the iteration sleeps
10 ms.  Writes to stdout and to the child are modelled as infallible. -/
def interactIter (inp : IterInput) : IterOut :=
  if inp.statusFirst = .ok .StillAlive then
    match inp.childRead with
    | some bs =>
      if bs.length = 0 then .ret inp.statusRepoll [] []
      else
        match inp.stdinRead with
        | some cs =>
          if cs.length = 0 then .ret inp.statusRepoll bs []
          else
            let f := forwardChunk cs
            if f.2 then .ret inp.statusRepoll bs f.1
            else .cont bs f.1 false
        | none => .cont bs [] false
    | none =>
      match inp.stdinRead with
      | some cs =>
        if cs.length = 0 then .ret inp.statusRepoll [] []
        else
          let f := forwardChunk cs
          if f.2 then .ret inp.statusRepoll [] f.1
          else .cont [] f.1 false
      | none => .cont [] [] true
  else .ret inp.statusFirst [] []

/-- Oracle environment for interact: the results of each fallible step it
performs, in source order. -/
structure InteractEnv where
  flushR : Except NixError Unit
  getEchoR : Except NixError Bool
  setEchoTrueR : Except NixError Unit
  isattyR : Except NixError Bool
  tcgetattrR : Except NixError Unit
  setRawR : Except NixError Unit
  spliceR : Except NixError WaitStatus
  tcsetattrR : Except NixError Unit
  setEchoRestoreR : Except NixError Unit

/-- One observable action of interact, recorded when the corresponding call
is made. -/
inductive IAction where
  | flushBuf
  | queryEcho
  | setEcho (echoOn : Bool)
  | queryIsatty
  | queryTermios
  | setRawMode
  | runSplice
  | restoreTermios
deriving DecidableEq, Repr

/-- The sync interact wrapper (process.rs lines 396 to 434): flush, read the
original pty echo, set echo on, test whether stdin is a tty; when it is,
save its termios and set it raw, run the splice loop, then restore the
termios and the pty echo; when it is not, run the splice loop and restore
the pty echo.  The splice loop result is bound, the restorations run, and
the bound result is returned; a failing restoration returns its own
error. -/
def interact (env : InteractEnv) : List IAction × Except NixError WaitStatus :=
  match env.flushR with
  | .error e => ([.flushBuf], .error e)
  | .ok _ =>
  match env.getEchoR with
  | .error e => ([.flushBuf, .queryEcho], .error e)
  | .ok originPtyEcho =>
  match env.setEchoTrueR with
  | .error e => ([.flushBuf, .queryEcho, .setEcho true], .error e)
  | .ok _ =>
  match env.isattyR with
  | .error e => ([.flushBuf, .queryEcho, .setEcho true, .queryIsatty], .error e)
  | .ok isattyIn =>
  let pre : List IAction := [.flushBuf, .queryEcho, .setEcho true, .queryIsatty]
  if isattyIn then
    match env.tcgetattrR with
    | .error e => (pre ++ [.queryTermios], .error e)
    | .ok _ =>
    match env.setRawR with
    | .error e => (pre ++ [.queryTermios, .setRawMode], .error e)
    | .ok _ =>
    let result := env.spliceR
    match env.tcsetattrR with
    | .error e =>
      (pre ++ [.queryTermios, .setRawMode, .runSplice, .restoreTermios], .error e)
    | .ok _ =>
    match env.setEchoRestoreR with
    | .error e =>
      (pre ++ [.queryTermios, .setRawMode, .runSplice, .restoreTermios,
        .setEcho originPtyEcho], .error e)
    | .ok _ =>
      (pre ++ [.queryTermios, .setRawMode, .runSplice, .restoreTermios,
        .setEcho originPtyEcho], result)
  else
    let result := env.spliceR
    match env.setEchoRestoreR with
    | .error e => (pre ++ [.runSplice, .setEcho originPtyEcho], .error e)
    | .ok _ => (pre ++ [.runSplice, .setEcho originPtyEcho], result)

/-- Oracle environment for make_controlling_tty: the results of its nine
fallible calls, in source order.  Open results carry the file
descriptor. -/
structure CttyEnv where
  openTtyFirst : Except NixError Nat
  closeFirst : Except NixError Unit
  setsidR : Except NixError Int
  openTtySecond : Except NixError Nat
  closeSecond : Except NixError Unit
  openSlave : Except NixError Nat
  closeSlave : Except NixError Unit
  openTtyThird : Except NixError Nat
  closeThird : Except NixError Unit

/-- make_controlling_tty (process.rs lines 889 to 929): open /dev/tty with
NOCTTY and close it, tolerating ENXIO; setsid; re-open /dev/tty expecting
the ENXIO error, where a success (after closing the fd) or any other error is an
unsupported-operation error; open and close the slave path; open /dev/tty
write-only and close it.  The last two opens and every close propagate
their own error. -/
def make_controlling_tty (env : CttyEnv) : Except NixError Unit :=
  let step1 : Except NixError Unit :=
    match env.openTtyFirst with
    | .ok _ => env.closeFirst
    | .error (.Sys Errno.ENXIO) => .ok ()
    | .error e => .error e
  match step1 with
  | .error e => .error e
  | .ok _ =>
  match env.setsidR with
  | .error e => .error e
  | .ok _ =>
  let step2 : Except NixError Unit :=
    match env.openTtySecond with
    | .error (.Sys Errno.ENXIO) => .ok ()
    | .ok _ =>
      match env.closeSecond with
      | .error e => .error e
      | .ok _ => .error .UnsupportedOperation
    | .error _ => .error .UnsupportedOperation
  match step2 with
  | .error e => .error e
  | .ok _ =>
  match env.openSlave with
  | .error e => .error e
  | .ok _ =>
  match env.closeSlave with
  | .error e => .error e
  | .ok _ =>
  match env.openTtyThird with
  | .error e => .error e
  | .ok _ => env.closeThird

/-- The wait_echo polling loop (process.rs lines 190 to 201), with idealized
instantaneous polls: the elapsed time before the i-th get_echo call is
100 * i milliseconds (a sleep of 100 ms follows every unmatched poll).  The
loop runs while the timeout is none or the elapsed time is below it; a
matching poll returns true, leaving the loop returns false, a failing poll
propagates.  Fuel bounds the number of loop tests; none means the fuel ran
out. -/
def wait_echo_loop (getEcho : Nat → Except NixError Bool) (want : Bool)
    (timeout : Option Nat) : Nat → Nat → Option (Except NixError Bool)
  | 0, _ => none
  | fuel + 1, i =>
    let inBudget : Bool :=
      match timeout with
      | none => true
      | some t => decide (100 * i < t)
    if inBudget then
      match getEcho i with
      | .error e => some (.error e)
      | .ok b =>
        if want = b then some (.ok true)
        else wait_echo_loop getEcho want timeout fuel (i + 1)
    else some (.ok false)

/-- Modelled from the spec: the Stream byte-sink adapter lives outside src;
the spec treats it as an external collaborator whose write operations write
the given bytes through to the child and whose flush flushes the stream.
The state records the bytes written so far and whether a flush ended the
last write. -/
structure StreamState where
  written : List Nat
  flushed : Bool
deriving DecidableEq, Repr

/-- Modelled from the spec: write_all appends every byte to the stream. -/
def write_all (st : StreamState) (bs : List Nat) : StreamState :=
  StreamState.mk (st.written ++ bs) st.flushed

/-- Modelled from the spec: flush marks the stream flushed. -/
def flushStream (st : StreamState) : StreamState :=
  StreamState.mk st.written true

/-- Modelled from the spec: write_vectored writes the concatenation of the
slices and returns the number of bytes written. -/
def write_vectored (st : StreamState) (bufs : List (List Nat)) : StreamState × Nat :=
  (StreamState.mk (st.written ++ bufs.flatten) st.flushed, bufs.flatten.length)

/-- The non-Windows line ending of send_line (process.rs line 330). -/
def lineEnding : List Nat := [10]

/-- The sync send (process.rs lines 321 to 323): write_all of the bytes of
the string. -/
def send (st : StreamState) (s : List Nat) : StreamState :=
  write_all st s

/-- The sync send_line (process.rs lines 326 to 342): a vectored write of
the string bytes, the line ending and an empty slice, the count ignored,
followed by a flush. -/
def send_line (st : StreamState) (s : List Nat) : StreamState :=
  let r := write_vectored st [s, lineEnding, []]
  flushStream r.1

/-- The async send_line (process.rs lines 513 to 524): write_all of the
string bytes, write_all of the line ending, then a flush. -/
def send_line_async (st : StreamState) (s : List Nat) : StreamState :=
  flushStream (write_all (write_all st s) lineEnding)

/-- Kernel-side state of the child as seen through waitpid: still running,
dead but not yet reaped holding its wait status, or reaped. -/
inductive ChildState where
  | alive
  | dead (ws : WaitStatus)
  | reaped
deriving DecidableEq, Repr

/-- Result of the non-blocking status query (waitpid with WNOHANG,
process.rs lines 225 to 227) in each child state: StillAlive while the
child runs, the recorded status when it is dead (which reaps it), and an
ECHILD error once reaped. -/
def statusRes : ChildState → Except NixError WaitStatus
  | .alive => .ok .StillAlive
  | .dead ws => .ok ws
  | .reaped => .error (.Sys .ECHILD)

/-- Kernel state after a status query: querying a dead child reaps it. -/
def statusNext : ChildState → ChildState
  | .alive => .alive
  | .dead _ => .reaped
  | .reaped => .reaped

/-- The is_alive result observed in a child state. -/
def isAliveRes (c : ChildState) : Except NixError Bool :=
  is_alive (statusRes c)

/-- One step of the child lifecycle: the child exits (moving from alive to
dead with some non-StillAlive wait status), or a status query runs, moving
the state along statusNext. -/
inductive ChildStep : ChildState → ChildState → Prop
  | childExits (ws : WaitStatus) (h : ws ≠ .StillAlive) : ChildStep .alive (.dead ws)
  | query (c : ChildState) : ChildStep c (statusNext c)

theorem recombineBytes (u : Nat) (h : u < 2 ^ 32) :
    u / 2 ^ 24 % 256 * 2 ^ 24 + u / 2 ^ 16 % 256 * 2 ^ 16 + u / 2 ^ 8 % 256 * 2 ^ 8
      + u % 256 = u := by
  omega

theorem fromBe_toBe (x : Int) (h0 : 0 ≤ x) (h1 : x < 2 ^ 31) :
    fromBeBytes4 (toBeBytes4 x) = x := by
  have hx : x % (2 : Int) ^ 32 = x := Int.emod_eq_of_lt h0 (by omega)
  have hu : x.toNat < 2 ^ 32 := by omega
  simp only [toBeBytes4, fromBeBytes4, hx, List.getD_cons_zero, List.getD_cons_succ]
  rw [recombineBytes x.toNat hu, if_pos (by omega)]
  omega

theorem parentReadOutcome_four (bs : List Nat) (h : bs.length = 4) :
    parentReadOutcome bs =
      if fromBeBytes4 bs ≠ 0 then .error (.Sys (errnoFromCode (fromBeBytes4 bs)))
      else .ok () := by
  unfold parentReadOutcome
  rw [show (4 : Nat) = bs.length from h.symm, List.take_left]

theorem toBeBytes4_length (x : Int) : (toBeBytes4 x).length = 4 := rfl

/-- Claim C1: on exec failure the child writes the errno as exactly four
big-endian bytes to the exec-error pipe and exits with that code; the
parent, reading those four nonzero bytes, converts the value back and
returns it as the spawn error; a read of zero bytes (EOF) leaves the
zeroed buffer intact and spawn treats the exec as successful. -/
theorem exec_error_pipe_roundtrip (e : Errno) (h : validErrno e = true) :
    (childReport (.Sys e)).1 = toBeBytes4 (errnoCode e) ∧
    (childReport (.Sys e)).1.length = 4 ∧
    (childReport (.Sys e)).2 = errnoCode e ∧
    parentReadOutcome (childReport (.Sys e)).1 = .error (.Sys e) ∧
    parentReadOutcome [] = .ok () := by
  simp only [validErrno, Bool.and_eq_true, decide_eq_true_eq] at h
  obtain ⟨⟨hpos, hlt⟩, hround⟩ := h
  refine ⟨rfl, rfl, rfl, ?_, by rfl⟩
  show parentReadOutcome (toBeBytes4 (errnoCode e)) = .error (.Sys e)
  rw [parentReadOutcome_four _ (toBeBytes4_length _),
    fromBe_toBe _ (le_of_lt hpos) hlt, if_pos (by omega), hround]

theorem exec_error_pipe_roundtrip_witness :
    (childReport (.Sys .ECHILD)).1 = toBeBytes4 (errnoCode .ECHILD) ∧
    (childReport (.Sys .ECHILD)).1.length = 4 ∧
    (childReport (.Sys .ECHILD)).2 = errnoCode .ECHILD ∧
    parentReadOutcome (childReport (.Sys .ECHILD)).1 = .error (.Sys .ECHILD) ∧
    parentReadOutcome [] = .ok () :=
  exec_error_pipe_roundtrip .ECHILD (by decide)

/-- Claim C3: is_alive returns Ok true exactly on a StillAlive status; any
other status and the errors ECHILD and ESRCH give Ok false; every other
error propagates unchanged; in particular after a successful reap, when
status queries fail with ECHILD, is_alive returns Ok false. -/
theorem is_alive_mapping :
    (∀ st, is_alive st = isAliveSpecClaim st) ∧
    (∀ st b, is_alive st = .ok b → (b = true ↔ st = .ok .StillAlive)) ∧
    is_alive (statusRes .reaped) = .ok false := by
  refine ⟨?_, ?_, rfl⟩
  · intro st
    rcases st with e | s
    · rcases e with e2 | _ | _ | _
      · cases e2 <;> rfl
      all_goals rfl
    · cases s <;> rfl
  · intro st b hb
    rcases st with e | s
    · rcases e with e2 | _ | _ | _
      · cases e2 <;> simp_all [is_alive]
      all_goals simp_all [is_alive]
    · by_cases hs : s = .StillAlive <;> simp_all [is_alive]

theorem is_alive_mapping_witness :
    is_alive (.ok .StillAlive) = isAliveSpecClaim (.ok .StillAlive) ∧
    (true = true ↔ (Except.ok .StillAlive : Except NixError WaitStatus) = .ok .StillAlive) :=
  ⟨is_alive_mapping.1 (.ok .StillAlive), is_alive_mapping.2.1 (.ok .StillAlive) true rfl⟩

/-- Claim C8: a successful send writes exactly the bytes of the string and
does not flush; a successful send_line writes exactly those bytes followed
by the single byte 0x0A and flushes; the async send_line produces the same
stream state. -/
theorem send_payloads (st : StreamState) (s : List Nat) :
    (send st s).written = st.written ++ s ∧
    (send st s).flushed = st.flushed ∧
    (send_line st s).written = st.written ++ s ++ [10] ∧
    (send_line st s).flushed = true ∧
    send_line_async st s = send_line st s := by
  refine ⟨rfl, rfl, ?_, rfl, ?_⟩
  · simp [send_line, write_vectored, flushStream, lineEnding, List.append_assoc]
  · simp [send_line, send_line_async, write_vectored, write_all, flushStream,
      lineEnding, List.append_assoc]

/-- Claim C2: exit returns true immediately when the child is already not
alive; otherwise it sends SIGHUP, SIGCONT, SIGINT, SIGTERM in that order,
sleeping the terminate-approach delay (default 100 ms) after each send and
returning true as soon as a liveness re-check finds the child dead; when
the child survives all four signals it returns false if force is unset,
and otherwise sends SIGKILL, sleeps the delay once more, and returns
whether the child is then dead.  Stated as equality with the unrolled spec
reading, for every run in which the kill and is_alive calls succeed. -/
theorem exit_escalation (env : ExitEnv) (alive : Nat → Bool) (delay : Nat) (force : Bool)
    (hK : ∀ n, env.killR n = .ok ())
    (hA : ∀ n, env.aliveR n = .ok (alive n)) :
    exit env delay force = exitSpecClaim alive delay force ∧
    default_terminate_approach_delay = 100 := by
  refine ⟨?_, rfl⟩
  have e0 := hA 0
  have e1 := hA 1
  have e2 := hA 2
  have e3 := hA 3
  have e4 := hA 4
  have e5 := hA 5
  have k0 := hK 0
  have k1 := hK 1
  have k2 := hK 2
  have k3 := hK 3
  have k4 := hK 4
  cases h0 : alive 0 <;> cases h1 : alive 1 <;> cases h2 : alive 2 <;>
    cases h3 : alive 3 <;> cases h4 : alive 4 <;> cases force <;>
    simp_all [exit, exitLoop, exitSignals, try_to_terminate, exitSpecClaim]

/-- A concrete exit oracle: the child dies after the second liveness
check, every kill succeeds. -/
def witnessExitEnv : ExitEnv :=
  ExitEnv.mk (fun n => .ok (decide (n < 2))) (fun _ => .ok ())

theorem exit_escalation_witness :
    exit witnessExitEnv 100 false = exitSpecClaim (fun n => decide (n < 2)) 100 false ∧
    default_terminate_approach_delay = 100 :=
  exit_escalation witnessExitEnv (fun n => decide (n < 2)) 100 false
    (fun _ => rfl) (fun _ => rfl)

theorem forwardChunk_no_escape (cs : List Nat) (h : groupSeparator ∉ cs) :
    forwardChunk cs = (cs, false) := by
  induction cs with
  | nil => rfl
  | cons b rest ih =>
    have hb : ¬ b = groupSeparator := fun hb0 => h (hb0 ▸ List.mem_cons_self b rest)
    have hrest : groupSeparator ∉ rest := fun hm => h (List.mem_cons_of_mem b hm)
    simp [forwardChunk, hb, ih hrest]

theorem forwardChunk_escape (cs : List Nat) (h : groupSeparator ∈ cs) :
    forwardChunk cs = (cs.takeWhile (fun b => decide (b ≠ groupSeparator)), true) := by
  induction cs with
  | nil => cases h
  | cons b rest ih =>
    by_cases hb : b = groupSeparator
    · subst hb
      simp [forwardChunk, List.takeWhile_cons]
    · have hrest : groupSeparator ∈ rest := by
        rcases List.mem_cons.mp h with h1 | h1
        · exact absurd h1.symm hb
        · exact h1
      simp [forwardChunk, hb, List.takeWhile_cons, ih hrest]

/-- Claim C4: in the splice loop, for a chunk read from the duplicated
stdin, the bytes before the first escape byte 0x1D are forwarded to the
child in read order; when the chunk holds an escape byte the iteration
returns the re-polled status, forwarding neither the escape byte nor any
later byte of the chunk; when it holds none, every byte is forwarded and
the loop continues. -/
theorem interact_escape_handling (inp : IterInput) (chunk : List Nat)
    (hst : inp.statusFirst = .ok .StillAlive)
    (hc : inp.childRead = none)
    (hs : inp.stdinRead = some chunk)
    (hne : chunk ≠ []) :
    (groupSeparator ∈ chunk →
      interactIter inp = .ret inp.statusRepoll []
        (chunk.takeWhile (fun b => decide (b ≠ groupSeparator)))) ∧
    (groupSeparator ∉ chunk → interactIter inp = .cont [] chunk false) := by
  have hlen : ¬ chunk.length = 0 := fun h0 => hne (List.length_eq_zero.mp h0)
  constructor
  · intro hmem
    simp [interactIter, hst, hc, hs, hlen, forwardChunk_escape chunk hmem]
  · intro hmem
    simp [interactIter, hst, hc, hs, hlen, forwardChunk_no_escape chunk hmem]

/-- A concrete splice iteration: the child is alive, the child stream
would block, stdin yields two bytes, the escape byte, then one more. -/
def witnessIterEscape : IterInput :=
  IterInput.mk (.ok .StillAlive) none (some [104, 105, 29, 106]) (.ok (.Exited 7 0))

theorem interact_escape_handling_witness :
    interactIter witnessIterEscape = .ret (.ok (.Exited 7 0)) [] [104, 105] :=
  (interact_escape_handling witnessIterEscape [104, 105, 29, 106] rfl rfl rfl
    (by decide)).1 (by decide)

/-- Claim C10: in the splice loop, a try_read of 0 bytes from the child
stream or from the duplicated stdin ends the loop at once, returning the
freshly re-polled wait status of the child. -/
theorem interact_eof_exit (inp : IterInput)
    (hst : inp.statusFirst = .ok .StillAlive) :
    (inp.childRead = some [] → interactIter inp = .ret inp.statusRepoll [] []) ∧
    (∀ bs, inp.childRead = some bs → bs ≠ [] → inp.stdinRead = some [] →
      interactIter inp = .ret inp.statusRepoll bs []) ∧
    (inp.childRead = none → inp.stdinRead = some [] →
      interactIter inp = .ret inp.statusRepoll [] []) := by
  refine ⟨?_, ?_, ?_⟩
  · intro hc
    simp [interactIter, hst, hc]
  · intro bs hc hbs hs
    have hlen : ¬ bs.length = 0 := fun h0 => hbs (List.length_eq_zero.mp h0)
    simp [interactIter, hst, hc, hs, hlen]
  · intro hc hs
    simp [interactIter, hst, hc, hs]

/-- A concrete splice iteration in which the child stream reports end of
file. -/
def witnessIterEof : IterInput :=
  IterInput.mk (.ok .StillAlive) (some []) none (.ok (.Exited 7 0))

theorem interact_eof_exit_witness :
    interactIter witnessIterEof = .ret (.ok (.Exited 7 0)) [] [] :=
  (interact_eof_exit witnessIterEof rfl).1 rfl

/-- Claim C5: both the saved stdin termios (when stdin is a tty) and the
saved pty echo setting are restored on every exit path of the splice loop,
and the splice result, status or error, is what interact returns when the
restorations succeed. -/
theorem interact_restoration (env : InteractEnv) (b t : Bool)
    (h1 : env.flushR = .ok ()) (h2 : env.getEchoR = .ok b)
    (h3 : env.setEchoTrueR = .ok ()) (h4 : env.isattyR = .ok t)
    (h5 : env.tcgetattrR = .ok ()) (h6 : env.setRawR = .ok ())
    (h7 : env.tcsetattrR = .ok ()) (h8 : env.setEchoRestoreR = .ok ()) :
    (interact env).2 = env.spliceR ∧
    IAction.setEcho b ∈ (interact env).1 ∧
    (t = true → IAction.restoreTermios ∈ (interact env).1) := by
  cases t <;> simp [interact, h1, h2, h3, h4, h5, h6, h7, h8]

/-- A concrete interact run: stdin is a tty and the splice loop fails with
an error; the restorations still run. -/
def witnessInteractEnv : InteractEnv :=
  InteractEnv.mk (.ok ()) (.ok false) (.ok ()) (.ok true) (.ok ()) (.ok ())
    (.error .InvalidPath) (.ok ()) (.ok ())

theorem interact_restoration_witness :
    (interact witnessInteractEnv).2 = witnessInteractEnv.spliceR ∧
    IAction.setEcho false ∈ (interact witnessInteractEnv).1 ∧
    (true = true → IAction.restoreTermios ∈ (interact witnessInteractEnv).1) :=
  interact_restoration witnessInteractEnv false true rfl rfl rfl rfl rfl rfl rfl rfl

/-- A concrete make_controlling_tty run: disconnected from any controlling
tty (both /dev/tty opens fail with ENXIO), setsid succeeds, and the open of
the slave path fails with EACCES. -/
def witnessCttyEnv : CttyEnv :=
  CttyEnv.mk (.error (.Sys Errno.ENXIO)) (.ok ()) (.ok 1) (.error (.Sys Errno.ENXIO)) (.ok ())
    (.error (.Sys .EACCES)) (.ok ()) (.ok 5) (.ok ())

/-- Claim C6 counterexample: a failure at the open of the slave path is
propagated as the underlying errno error, not reported as an
unsupported-operation error. -/
theorem ctty_slave_open_error_not_unsupported :
    make_controlling_tty witnessCttyEnv = .error (.Sys .EACCES) ∧
    (Except.error (.Sys .EACCES) : Except NixError Unit) ≠ .error .UnsupportedOperation :=
  ⟨rfl, by decide⟩

/-- Claim C6 amended: only a deviation at the post-setsid re-open of
/dev/tty (a success, or a failure other than ENXIO) is reported as an
unsupported-operation error; failures at the subsequent open of the slave
path or at the final write-only open of /dev/tty propagate the underlying
error unchanged. -/
theorem ctty_protocol_errors (env : CttyEnv) (sid : Int)
    (h1 : env.openTtyFirst = .error (.Sys Errno.ENXIO))
    (h2 : env.setsidR = .ok sid) :
    (∀ fd, env.openTtySecond = .ok fd → env.closeSecond = .ok () →
      make_controlling_tty env = .error .UnsupportedOperation) ∧
    (∀ e2, env.openTtySecond = .error e2 → e2 ≠ .Sys Errno.ENXIO →
      make_controlling_tty env = .error .UnsupportedOperation) ∧
    (env.openTtySecond = .error (.Sys Errno.ENXIO) →
      (∀ e2, env.openSlave = .error e2 → make_controlling_tty env = .error e2) ∧
      (∀ fd, env.openSlave = .ok fd → env.closeSlave = .ok () →
        ∀ e3, env.openTtyThird = .error e3 → make_controlling_tty env = .error e3)) := by
  refine ⟨?_, ?_, ?_⟩
  · intro fd hfd hcl
    simp [make_controlling_tty, h1, h2, hfd, hcl]
  · intro e2 he2 hne
    rcases e2 with e3 | _ | _ | _
    · cases e3 <;> simp_all [make_controlling_tty]
    all_goals simp_all [make_controlling_tty]
  · intro hsec
    constructor
    · intro e2 he2
      simp [make_controlling_tty, h1, h2, hsec, he2]
    · intro fd hfd hcl e3 he3
      simp [make_controlling_tty, h1, h2, hsec, hfd, hcl, he3]

/-- A concrete make_controlling_tty run in which the post-setsid re-open of
/dev/tty unexpectedly succeeds. -/
def witnessCttyEnv2 : CttyEnv :=
  CttyEnv.mk (.error (.Sys Errno.ENXIO)) (.ok ()) (.ok 1) (.ok 3) (.ok ()) (.ok 4)
    (.ok ()) (.ok 5) (.ok ())

theorem ctty_protocol_errors_witness :
    make_controlling_tty witnessCttyEnv2 = .error .UnsupportedOperation :=
  (ctty_protocol_errors witnessCttyEnv2 1 rfl rfl).1 3 rfl rfl

/-- Claim C7 counterexample: with a zero timeout the polling loop body
never runs, so wait_echo returns Ok false even though the echo setting
already matches at the time of the call. -/
theorem wait_echo_zero_timeout_false :
    wait_echo_loop (fun _ => .ok true) true (some 0) 1 0 = some (.ok false) ∧
    (some (Except.ok true) : Option (Except NixError Bool)) ≠ some (.ok false) :=
  ⟨rfl, by decide⟩

theorem wait_echo_loop_nomatch (getEcho : Nat → Except NixError Bool) (e : Nat → Bool)
    (want : Bool) (t : Nat) (hE : ∀ n, getEcho n = .ok (e n))
    (h : ∀ k, 100 * k < t → e k ≠ want) :
    ∀ fuel i, t ≤ 100 * (i + fuel) →
      wait_echo_loop getEcho want (some t) (fuel + 1) i = some (.ok false) := by
  intro fuel
  induction fuel with
  | zero =>
    intro i hi
    have hc : ¬ 100 * i < t := by omega
    simp [wait_echo_loop, hc]
  | succ n ih =>
    intro i hi
    by_cases hc : 100 * i < t
    · have hne : ¬ want = e i := fun hh => h i hc hh.symm
      rw [wait_echo_loop]
      simp only [hE i, decide_eq_true_eq]
      rw [if_pos hc, if_neg hne]
      exact ih (i + 1) (by omega)
    · simp [wait_echo_loop, hc]

theorem wait_echo_loop_match (getEcho : Nat → Except NixError Bool) (e : Nat → Bool)
    (want : Bool) (t : Nat) (j : Nat) (hE : ∀ n, getEcho n = .ok (e n))
    (hj : 100 * j < t) (hm : e j = want) (hmin : ∀ i, i < j → e i ≠ want) :
    ∀ fuel i, i ≤ j → j - i ≤ fuel →
      wait_echo_loop getEcho want (some t) (fuel + 1) i = some (.ok true) := by
  intro fuel
  induction fuel with
  | zero =>
    intro i hij hfi
    have hij2 : i = j := by omega
    subst hij2
    simp [wait_echo_loop, hj, hE i, hm]
  | succ n ih =>
    intro i hij hfi
    by_cases hij2 : i = j
    · subst hij2
      simp [wait_echo_loop, hj, hE i, hm]
    · have hlt : i < j := lt_of_le_of_ne hij hij2
      have hc : 100 * i < t := by omega
      have hne : ¬ want = e i := fun hh => hmin i hlt hh.symm
      rw [wait_echo_loop]
      simp only [hE i, decide_eq_true_eq]
      rw [if_pos hc, if_neg hne]
      exact ih (i + 1) (by omega) (by omega)

/-- Claim C7 amended: wait_echo polls get_echo every 100 ms; it returns
Ok true at the first poll that matches before the timeout elapses — in
particular, when the echo setting already matches at the time of the call
and the timeout is absent or positive — and returns Ok false once the
timeout elapses without a match (so a zero timeout returns Ok false
without polling); it fails only when the underlying get_echo fails. -/
theorem wait_echo_polling (getEcho : Nat → Except NixError Bool) (e : Nat → Bool)
    (want : Bool) (t : Nat) (fuel : Nat)
    (hE : ∀ n, getEcho n = .ok (e n)) (hfuel : t ≤ 100 * fuel) :
    (∀ j, 100 * j < t → e j = want → (∀ i, i < j → e i ≠ want) →
      wait_echo_loop getEcho want (some t) (fuel + 1) 0 = some (.ok true)) ∧
    ((∀ i, 100 * i < t → e i ≠ want) →
      wait_echo_loop getEcho want (some t) (fuel + 1) 0 = some (.ok false)) ∧
    (0 < t → e 0 = want →
      wait_echo_loop getEcho want (some t) (fuel + 1) 0 = some (.ok true)) ∧
    (e 0 = want → wait_echo_loop getEcho want none 1 0 = some (.ok true)) := by
  refine ⟨?_, ?_, ?_, ?_⟩
  · intro j hj hm hmin
    exact wait_echo_loop_match getEcho e want t j hE hj hm hmin fuel 0
      (by omega) (by omega)
  · intro h
    exact wait_echo_loop_nomatch getEcho e want t hE h fuel 0 (by omega)
  · intro ht hm
    exact wait_echo_loop_match getEcho e want t 0 hE (by omega) hm
      (fun i hi => absurd hi (Nat.not_lt_zero i)) fuel 0 (by omega) (by omega)
  · intro hm
    simp [wait_echo_loop, hE 0, hm]

theorem wait_echo_polling_witness :
    wait_echo_loop (fun n => .ok (decide (n = 2))) true (some 500) 6 0 = some (.ok true) :=
  (wait_echo_polling (fun n => .ok (decide (n = 2))) (fun n => decide (n = 2)) true 500 5
    (fun _ => rfl) (by omega)).1 2 (by omega) (by decide) (by decide)

/-- Claim C9: along any run of the child lifecycle, once is_alive observes
Ok false no later observation yields Ok true: liveness is monotone from
true to false over the handle's lifetime. -/
theorem is_alive_monotone (c c2 : ChildState)
    (h : Relation.ReflTransGen ChildStep c c2)
    (hfalse : isAliveRes c = .ok false) :
    isAliveRes c2 ≠ .ok true := by
  induction h with
  | refl =>
    intro hc
    rw [hfalse] at hc
    cases hc
  | @tail b c3 hab hbc ih =>
    cases hbc with
    | childExits ws hws => exact absurd rfl ih
    | query =>
      cases b with
      | alive => exact ih
      | dead ws => simp [isAliveRes, statusNext, statusRes, is_alive]
      | reaped => exact ih

theorem is_alive_monotone_witness :
    isAliveRes (.dead (.Exited 1 0)) = .ok false ∧ isAliveRes .reaped ≠ .ok true :=
  ⟨by decide, is_alive_monotone (.dead (.Exited 1 0)) .reaped
    (Relation.ReflTransGen.single (ChildStep.query (.dead (.Exited 1 0)))) (by decide)⟩

end Ptyprocess
